import Mathlib

/-!
Shallow embedding of the annotation CRUD/search API views
(`src/h/views/api/annotations.py`) and the event model (`src/h/events.py`).

Collaborators (schema validators, the persistence write service, the search
backend, the presentation service, the delete service, the search index) are
external to the core; they are modelled as function-valued fields of a
`Request` record, so each view is a pure function of the request.  Fallible
collaborator calls return `Except Err`.  Every externally observable
collaborator call made by a view is recorded, in program order, in a trace
(`List Step`) returned alongside the view's result; scheduling an event via
`request.notify_after_commit(event)` is one such step.  The `request` handle
stored inside a Python `AnnotationEvent` is an opaque context and is not
modelled; the event's observable attributes are its annotation id and action.
-/

/-- Opaque annotation identifiers (string/UUID in the source). -/
abbrev AnnotationId := String

/-- Opaque identifier of the requesting user (`request.user`; may be absent). -/
abbrev UserId := String

/-- Opaque presented form produced by the presentation collaborator. -/
abbrev Presented := String

/-- Opaque validated field struct (`appstruct`) produced by a schema's
`validate`. -/
abbrev Appstruct := String

/-- The slice of an annotation record visible to this core: its id, target
URI and group id (`src/h/views/api/annotations.py` reads exactly these). -/
structure Annot where
  id : AnnotationId
  target_uri : String
  groupid : String
deriving Repr, DecidableEq

/-- `AnnotationEvent` from `src/h/events.py`, minus the opaque request
handle: an annotation id and an action string. -/
structure AnnotationEvent where
  annotation_id : AnnotationId
  action : String
deriving Repr, DecidableEq

/-- Result of the search collaborator's `run`: a total count, the ordered
primary annotation ids, and the ordered reply ids. -/
structure SearchResult where
  total : Nat
  annotation_ids : List AnnotationId
  reply_ids : List AnnotationId
deriving Repr, DecidableEq

/-- A value stored under a key of a validated query-parameter dict.  The
schema produces booleans for flags such as `_separate_replies` and strings
for the rest. -/
inductive ParamValue where
  | str (s : String)
  | bool (b : Bool)
deriving Repr, DecidableEq

/-- Python truthiness of a parameter value (`if separate_replies:`). -/
def ParamValue.truthy : ParamValue → Bool
  | .str s => s != ""
  | .bool b => b

/-- A validated query-parameter dict, as an association list with unique
keys (Python dict). -/
abbrev Params := List (String × ParamValue)

/-- `dict.pop(key, default)`: the stored value (if any) together with the
dict with that key removed. -/
def dict_pop (params : Params) (key : String) : Option ParamValue × Params :=
  (params.lookup key, params.filter (fun kv => kv.1 != key))

/-- A value of a JSON-object response built by a view (`total`, `rows`,
`replies`, `id`, `deleted`, `indexed`). -/
inductive Value where
  | num (n : Nat)
  | str (s : String)
  | bool (b : Bool)
  | list (xs : List Presented)
deriving Repr, DecidableEq

/-- A JSON-object response, as an association list preserving key order. -/
abbrev Response := List (String × Value)

/-- Errors a view can raise: a schema validation error, a collaborator
failure propagated unchanged, or `HTTPNotFound`. -/
inductive Err where
  | validation (msg : String)
  | collaborator (msg : String)
  | httpNotFound
deriving Repr, DecidableEq

/-- One externally observable collaborator call made by a view, recorded in
program order. -/
inductive Step where
  | validate
  | create_annot (data : Appstruct)
  | update_annot (ann : Annot) (data : Appstruct)
  | delete_annot (ann : Annot)
  | search_run (params : Params) (separate_replies : Bool)
  | notify_after_commit (event : AnnotationEvent)
  | present_for_user (ann : Annot) (user : Option UserId)
  | present_all_for_user (ids : List AnnotationId) (user : Option UserId)
  | add_annot (ann : Annot) (refresh : Bool)
deriving Repr, DecidableEq

/-- The request together with the behaviour of every collaborator it can
reach via `find_service` / module imports:
* `validate_create` — `CreateAnnotationSchema(request).validate(json_payload(request))`;
* `validate_update` — `UpdateAnnotationSchema(request, target_uri, groupid).validate(json_payload(request))`;
* `validate_search` — `validate_query_params(SearchParamsSchema(), request.params)`;
* `create_annotation` / `update_annotation` — `AnnotationWriteService`;
* `annotation_delete` — the `annotation_delete` service's `delete`;
* `search_run` — `search_lib.Search(request, separate_replies=...).run(params)`;
* `present_for_user` / `present_all_for_user` — the `annotation_json` service;
* `user` — `request.user`;
* `dev` — `request.registry.settings["h.dev"]`. -/
structure Request where
  validate_create : Except Err Appstruct
  validate_update : String → String → Except Err Appstruct
  validate_search : Except Err Params
  create_ann : Appstruct → Except Err Annot
  update_ann : Annot → Appstruct → Except Err Annot
  delete_svc : Annot → Except Err Unit
  run_search : Params → Bool → SearchResult
  present_one : Annot → Option UserId → Presented
  present_all : List AnnotationId → Option UserId → List Presented
  user : Option UserId
  dev : Bool

/-- The traversal context of the `api.annotation` routes: the annotation
already looked up (and authorization-checked) before the view runs. -/
structure Context where
  ann : Annot
deriving Repr, DecidableEq

/-- `_publish_annotation_event(request, annotation, action)`: constructs
`AnnotationEvent(request, annotation.id, action)` and schedules it with
`request.notify_after_commit(event)`. -/
def publish_annotation_event (ann : Annot) (action : String) : List Step :=
  [ Step.notify_after_commit ⟨ ann.id, action⟩]

/-- View `create(request)`: validate the payload, create the annotation via
the write service, publish a `"create"` event, present the new annotation. -/
def create (req : Request) : Except Err Presented × List Step :=
  match req.validate_create with
  | .error e => (.error e, [ Step.validate])
  | .ok appstruct =>
    match req.create_ann appstruct with
    | .error e => (.error e, [ Step.validate, Step.create_annot appstruct])
    | .ok ann =>
      (.ok (req.present_one ann req.user),
       [ Step.validate, Step.create_annot appstruct]
         ++ publish_annotation_event ann "create"
         ++ [ Step.present_for_user ann req.user])

/-- View `update(context, request)`: validate the payload against the
existing annotation's target URI and group, update via the write service,
publish an `"update"` event, present the updated annotation. -/
def update (ctx : Context) (req : Request) : Except Err Presented × List Step :=
  match req.validate_update ctx.ann.target_uri ctx.ann.groupid with
  | .error e => (.error e, [ Step.validate])
  | .ok appstruct =>
    match req.update_ann ctx.ann appstruct with
    | .error e => (.error e, [ Step.validate, Step.update_annot ctx.ann appstruct])
    | .ok ann =>
      (.ok (req.present_one ann req.user),
       [ Step.validate, Step.update_annot ctx.ann appstruct]
         ++ publish_annotation_event ann "update"
         ++ [ Step.present_for_user ann req.user])

/-- View `read(context, request)`: pure pass-through to the presentation
collaborator. -/
def read (ctx : Context) (req : Request) : Presented × List Step :=
  (req.present_one ctx.ann req.user,
   [ Step.present_for_user ctx.ann req.user])

/-- View `delete(context, request)`: delegate to the `annotation_delete`
service, then return `{"id": ..., "deleted": True}`. -/
def delete (ctx : Context) (req : Request) : Except Err Response × List Step :=
  match req.delete_svc ctx.ann with
  | .error e => (.error e, [ Step.delete_annot ctx.ann])
  | .ok _ =>
    (.ok [("id", Value.str ctx.ann.id), ("deleted", Value.bool true)],
     [ Step.delete_annot ctx.ann])

/-- View `reindex(context, request)`: raise `HTTPNotFound` unless
`request.registry.settings["h.dev"]`, else `search_index.add_annotation`
with `refresh=True` and return `{"id": ..., "indexed": True}`. -/
def reindex (ctx : Context) (req : Request) : Except Err Response × List Step :=
  if !req.dev then
    (.error Err.httpNotFound, [])
  else
    (.ok [("id", Value.str ctx.ann.id), ("indexed", Value.bool true)],
     [ Step.add_annot ctx.ann true])

/-- The value of `separate_replies` after
`separate_replies = params.pop("_separate_replies", False)`: the stored
value's truthiness, or `False` when the key is absent. -/
def separate_replies_of (params : Params) : Bool :=
  match (dict_pop params "_separate_replies").1 with
  | some v => v.truthy
  | none => false

/-- The parameter dict left behind by the same `params.pop` call: the
validated params with the `_separate_replies` key removed. -/
def remaining_params (params : Params) : Params :=
  (dict_pop params "_separate_replies").2

/-- View `search(request)`: validate query params, pop `_separate_replies`
(default `False`; the single `params.pop` call in the source both yields
`separate_replies_of params` and leaves `remaining_params params`), run the
search collaborator on the remaining params, bulk-present the primary ids
into `rows`, and — only when the flag is truthy — bulk-present the reply
ids into `replies`. -/
def search (req : Request) : Except Err Response × List Step :=
  match req.validate_search with
  | .error e => (.error e, [ Step.validate])
  | .ok params =>
    let separate_replies : Bool := separate_replies_of params
    let params' := remaining_params params
    let result := req.run_search params' separate_replies
    let rows := req.present_all result.annotation_ids req.user
    let out : Response := [("total", Value.num result.total), ("rows", Value.list rows)]
    let steps := [ Step.validate, Step.search_run params' separate_replies,
                   Step.present_all_for_user result.annotation_ids req.user]
    if separate_replies then
      (.ok (out ++ [("replies", Value.list (req.present_all result.reply_ids req.user))]),
       steps ++ [ Step.present_all_for_user result.reply_ids req.user])
    else
      (.ok out, steps)

/-- The events scheduled via `notify_after_commit` during a trace, in
order. -/
def notifyEvents (steps : List Step) : List AnnotationEvent :=
  steps.filterMap fun s =>
    match s with
    | .notify_after_commit e => some e
    | _ => none

/-- Whether a response object contains a given key. -/
def hasKey (r : Response) (k : String) : Bool :=
  r.any (fun kv => kv.1 == k)

/-- The id sequences handed to bulk presentation calls during a trace, in
order. -/
def bulkPresentedIds (steps : List Step) : List (List AnnotationId) :=
  steps.filterMap fun s =>
    match s with
    | .present_all_for_user ids _ => some ids
    | _ => none

/-- Whether a trace contains any per-item presentation call. -/
def hasSinglePresent (steps : List Step) : Bool :=
  steps.any fun s =>
    match s with
    | .present_for_user _ _ => true
    | _ => false

/-- Whether a trace contains any index-update (`add_annotation`) call. -/
def hasAddAnnot (steps : List Step) : Bool :=
  steps.any fun s =>
    match s with
    | .add_annot _ _ => true
    | _ => false

/-! ### Concrete fixtures used by the witnesses -/

/-- A concrete annotation record. -/
def annA : Annot := ⟨"ann1", "http://x", "g1"⟩

/-- A second concrete annotation record (result of an update). -/
def annB : Annot := ⟨"ann2", "http://y", "g1"⟩

/-- A concrete traversal context holding `annA`. -/
def ctx0 : Context := ⟨ annA⟩

/-- A request whose collaborators all succeed, with dev mode on and a
search collaborator returning total=2, primary ids `["a1"]`, reply ids
`["r1"]`. -/
def okReq : Request where
  validate_create := .ok "fieldsC"
  validate_update := fun _ _ => .ok "fieldsU"
  validate_search := .ok [("q", ParamValue.str "foo"), ("_separate_replies", ParamValue.bool true)]
  create_ann := fun _ => .ok annA
  update_ann := fun _ _ => .ok annB
  delete_svc := fun _ => .ok ()
  run_search := fun _ _ => ⟨2, ["a1"], ["r1"]⟩
  present_one := fun a u => a.id ++ "/" ++ u.getD "-"
  present_all := fun ids u => ids.map (fun i => i ++ "/" ++ u.getD "-")
  user := some "u1"
  dev := true

/-- Like `okReq`, but the persistence write service fails. -/
def failReq : Request :=
  { okReq with
    create_ann := fun _ => .error (Err.collaborator "db down")
    update_ann := fun _ _ => .error (Err.collaborator "db down") }

/-- Like `okReq`, but with the dev-mode flag off. -/
def prodReq : Request := { okReq with dev := false }

/-- Like `okReq`, but the validated search params lack `_separate_replies`. -/
def plainSearchReq : Request :=
  { okReq with validate_search := .ok [("q", ParamValue.str "foo")] }

/-! ### Claim theorems -/

/-- Claim C1: for every successful create or update call (validator and
persistence collaborator both succeed), exactly one `AnnotationEvent` with
the matching action (`"create"` / `"update"`) and the persisted
annotation's id is scheduled via `notify_after_commit`, and it appears in
the trace strictly after the persistence mutation step. -/
theorem create_update_publish_one_event
    (req : Request) (ctx : Context) (a b : Appstruct) (ann1 ann2 : Annot)
    (hvc : req.validate_create = .ok a)
    (hcc : req.create_ann a = .ok ann1)
    (hvu : req.validate_update ctx.ann.target_uri ctx.ann.groupid = .ok b)
    (hcu : req.update_ann ctx.ann b = .ok ann2) :
    notifyEvents (create req).2 = [⟨ ann1.id, "create"⟩]
    ∧ (∃ i j, i < j ∧ (create req).2.get? i = some (Step.create_annot a)
        ∧ (create req).2.get? j = some (Step.notify_after_commit ⟨ ann1.id, "create"⟩))
    ∧ notifyEvents (update ctx req).2 = [⟨ ann2.id, "update"⟩]
    ∧ (∃ i j, i < j ∧ (update ctx req).2.get? i = some (Step.update_annot ctx.ann b)
        ∧ (update ctx req).2.get? j = some (Step.notify_after_commit ⟨ ann2.id, "update"⟩)) := by
  refine ⟨?_, ⟨1, 2, by omega, ?_, ?_⟩, ?_, ⟨1, 2, by omega, ?_, ?_⟩⟩ <;>
    simp [create, update, hvc, hcc, hvu, hcu, publish_annotation_event, notifyEvents]

/-- Witness for C1 at `okReq` / `ctx0`. -/
theorem create_update_publish_one_event_witness :
    (okReq.validate_create = .ok "fieldsC"
     ∧ okReq.create_ann "fieldsC" = .ok annA
     ∧ okReq.validate_update ctx0.ann.target_uri ctx0.ann.groupid = .ok "fieldsU"
     ∧ okReq.update_ann ctx0.ann "fieldsU" = .ok annB)
    ∧ notifyEvents (create okReq).2 = [⟨"ann1", "create"⟩]
    ∧ notifyEvents (update ctx0 okReq).2 = [⟨"ann2", "update"⟩] := by
  have h := create_update_publish_one_event okReq ctx0 "fieldsC" "fieldsU" annA annB
    rfl rfl rfl rfl
  exact ⟨⟨rfl, rfl, rfl, rfl⟩, h.1, h.2.2.1⟩

/-- Claim C2: for every create or update call in which the persistence
collaborator fails, the failure is propagated to the caller and no event is
scheduled (`notify_after_commit` is never reached on the failure path). -/
theorem create_update_failure_no_event
    (req : Request) (ctx : Context) (a b : Appstruct) (e1 e2 : Err)
    (hvc : req.validate_create = .ok a)
    (hcc : req.create_ann a = .error e1)
    (hvu : req.validate_update ctx.ann.target_uri ctx.ann.groupid = .ok b)
    (hcu : req.update_ann ctx.ann b = .error e2) :
    (create req).1 = .error e1 ∧ notifyEvents (create req).2 = []
    ∧ (update ctx req).1 = .error e2 ∧ notifyEvents (update ctx req).2 = [] := by
  simp [create, update, hvc, hcc, hvu, hcu, notifyEvents]

/-- Witness for C2 at `failReq` / `ctx0`. -/
theorem create_update_failure_no_event_witness :
    (failReq.validate_create = .ok "fieldsC"
     ∧ failReq.create_ann "fieldsC" = .error (Err.collaborator "db down")
     ∧ failReq.validate_update ctx0.ann.target_uri ctx0.ann.groupid = .ok "fieldsU"
     ∧ failReq.update_ann ctx0.ann "fieldsU" = .error (Err.collaborator "db down"))
    ∧ (create failReq).1 = .error (Err.collaborator "db down")
    ∧ notifyEvents (create failReq).2 = []
    ∧ notifyEvents (update ctx0 failReq).2 = [] := by
  have h := create_update_failure_no_event failReq ctx0 "fieldsC" "fieldsU"
    (Err.collaborator "db down") (Err.collaborator "db down") rfl rfl rfl rfl
  exact ⟨⟨rfl, rfl, rfl, rfl⟩, h.1, h.2.1, h.2.2.2⟩

/-- Helper: looking up a key in a dict from which that key was just removed
yields nothing. -/
theorem lookup_remaining_params (params : Params) :
    (remaining_params params).lookup "_separate_replies" = none := by
  unfold remaining_params dict_pop
  induction params with
  | nil => simp
  | cons kv rest ih =>
    by_cases h : kv.1 = "_separate_replies"
    · simp [List.filter_cons, h, List.lookup, ih]
    · have h' : ("_separate_replies" == kv.1) = false :=
        beq_eq_false_iff_ne.mpr (Ne.symm h)
      simp [List.filter_cons, h, List.lookup, ih, h']

/-- Claim C3: for every search call, with `separateReplies` false the
response has key `rows` and no key `replies`; with it true the response has
both keys, `rows` / `replies` are built exactly from the collaborator's
primary / reply id sequences, and those two id sets are disjoint (the
disjointness itself is the search collaborator's documented `SearchResult`
invariant, taken as a hypothesis). -/
theorem search_replies_key_contract
    (req : Request) (params : Params) (R : SearchResult)
    (hv : req.validate_search = .ok params)
    (hR : req.run_search (remaining_params params) (separate_replies_of params) = R)
    (hdisj : ∀ x ∈ R.reply_ids, x ∉ R.annotation_ids) :
    ∃ out, (search req).1 = .ok out
      ∧ hasKey out "rows" = true
      ∧ (separate_replies_of params = false → hasKey out "replies" = false)
      ∧ (separate_replies_of params = true →
           hasKey out "replies" = true
           ∧ out.lookup "rows" = some (Value.list (req.present_all R.annotation_ids req.user))
           ∧ out.lookup "replies" = some (Value.list (req.present_all R.reply_ids req.user))
           ∧ ∀ x ∈ R.reply_ids, x ∉ R.annotation_ids) := by
  cases hsep : separate_replies_of params with
  | false =>
    rw [hsep] at hR
    refine ⟨[("total", Value.num R.total),
             ("rows", Value.list (req.present_all R.annotation_ids req.user))],
      ?_, by simp [hasKey], fun _ => by simp [hasKey], by simp⟩
    simp [search, hv, hsep, hR]
  | true =>
    rw [hsep] at hR
    refine ⟨[("total", Value.num R.total),
             ("rows", Value.list (req.present_all R.annotation_ids req.user)),
             ("replies", Value.list (req.present_all R.reply_ids req.user))],
      ?_, by simp [hasKey], by simp, fun _ =>
        ⟨by simp [hasKey], by simp [List.lookup], by simp [List.lookup], hdisj⟩⟩
    simp [search, hv, hsep, hR]

/-- Witness for C3 at `okReq` (flag present and true; collaborator returns
primary `["a1"]`, replies `["r1"]`, which are disjoint). -/
theorem search_replies_key_contract_witness :
    (okReq.validate_search
        = .ok [("q", ParamValue.str "foo"), ("_separate_replies", ParamValue.bool true)]
     ∧ okReq.run_search
          (remaining_params [("q", ParamValue.str "foo"), ("_separate_replies", ParamValue.bool true)])
          (separate_replies_of [("q", ParamValue.str "foo"), ("_separate_replies", ParamValue.bool true)])
        = ⟨2, ["a1"], ["r1"]⟩
     ∧ (∀ x ∈ (⟨2, ["a1"], ["r1"]⟩ : SearchResult).reply_ids,
          x ∉ (⟨2, ["a1"], ["r1"]⟩ : SearchResult).annotation_ids))
    ∧ ∃ out, (search okReq).1 = .ok out ∧ hasKey out "rows" = true := by
  have h := search_replies_key_contract okReq
    [("q", ParamValue.str "foo"), ("_separate_replies", ParamValue.bool true)]
    ⟨2, ["a1"], ["r1"]⟩ rfl rfl (by decide)
  exact ⟨⟨rfl, rfl, by decide⟩, h.choose, h.choose_spec.1, h.choose_spec.2.1⟩

/-- Claim C7: for every search call, the `separateReplies` flag defaults to
false when absent from the validated params, and the params forwarded to
the search collaborator never contain the `_separate_replies` key. -/
theorem search_flag_default_and_removed
    (req : Request) (params : Params)
    (hv : req.validate_search = .ok params) :
    (params.lookup "_separate_replies" = none → separate_replies_of params = false)
    ∧ ∀ p sep, Step.search_run p sep ∈ (search req).2 →
        p = remaining_params params ∧ p.lookup "_separate_replies" = none := by
  constructor
  · intro habs
    simp [separate_replies_of, dict_pop, habs]
  · intro p sep hmem
    have hp : p = remaining_params params := by
      cases hsep : separate_replies_of params
      · have h2 : p = remaining_params params ∧ sep = false := by
          simpa [search, hv, hsep] using hmem
        exact h2.1
      · have h2 : p = remaining_params params ∧ sep = true := by
          simpa [search, hv, hsep] using hmem
        exact h2.1
    exact ⟨hp, hp ▸ lookup_remaining_params params⟩

/-- Witness for C7 at `plainSearchReq` (no `_separate_replies` key). -/
theorem search_flag_default_and_removed_witness :
    plainSearchReq.validate_search = .ok [("q", ParamValue.str "foo")]
    ∧ separate_replies_of [("q", ParamValue.str "foo")] = false
    ∧ ∀ p sep, Step.search_run p sep ∈ (search plainSearchReq).2 →
        p.lookup "_separate_replies" = none := by
  have h := search_flag_default_and_removed plainSearchReq [("q", ParamValue.str "foo")] rfl
  exact ⟨rfl, h.1 (by decide), fun p sep hmem => (h.2 p sep hmem).2⟩

/-- Claim C8: for every search call, the id sequences handed to the
presentation collaborator are exactly the collaborator's sequences, in
order — one bulk presentation call per sequence — and no per-item
presentation call is made. -/
theorem search_bulk_presentation_order
    (req : Request) (params : Params) (R : SearchResult)
    (hv : req.validate_search = .ok params)
    (hR : req.run_search (remaining_params params) (separate_replies_of params) = R) :
    (separate_replies_of params = false →
        bulkPresentedIds (search req).2 = [R.annotation_ids])
    ∧ (separate_replies_of params = true →
        bulkPresentedIds (search req).2 = [R.annotation_ids, R.reply_ids])
    ∧ hasSinglePresent (search req).2 = false := by
  refine ⟨fun hsep => ?_, fun hsep => ?_, ?_⟩
  · rw [hsep] at hR
    simp [search, hv, hsep, hR, bulkPresentedIds]
  · rw [hsep] at hR
    simp [search, hv, hsep, hR, bulkPresentedIds]
  · cases hsep : separate_replies_of params <;>
      simp [search, hv, hsep, hasSinglePresent]

/-- Witness for C8 at `okReq`. -/
theorem search_bulk_presentation_order_witness :
    (okReq.validate_search
        = .ok [("q", ParamValue.str "foo"), ("_separate_replies", ParamValue.bool true)]
     ∧ separate_replies_of [("q", ParamValue.str "foo"), ("_separate_replies", ParamValue.bool true)]
        = true)
    ∧ bulkPresentedIds (search okReq).2 = [["a1"], ["r1"]]
    ∧ hasSinglePresent (search okReq).2 = false := by
  have h := search_bulk_presentation_order okReq
    [("q", ParamValue.str "foo"), ("_separate_replies", ParamValue.bool true)]
    ⟨2, ["a1"], ["r1"]⟩ rfl rfl
  exact ⟨⟨rfl, by decide⟩, h.2.1 (by decide), h.2.2⟩

/-- Claim C4: for every reindex call, with the dev-mode flag off the call
fails with Not-Found regardless of the target annotation; with it on the
call succeeds, performs exactly one `add_annotation` with `refresh=True`
for that annotation, and returns `{"id": ..., "indexed": True}`. -/
theorem reindex_dev_gate (ctx : Context) (req : Request) :
    (req.dev = false → (reindex ctx req).1 = .error Err.httpNotFound)
    ∧ (req.dev = true →
        (reindex ctx req).1
          = .ok [("id", Value.str ctx.ann.id), ("indexed", Value.bool true)]
        ∧ (reindex ctx req).2 = [ Step.add_annot ctx.ann true]) := by
  constructor
  · intro h
    simp [reindex, h]
  · intro h
    simp [reindex, h]

/-- Witness for C4 at `prodReq` (dev off) and `okReq` (dev on). -/
theorem reindex_dev_gate_witness :
    (prodReq.dev = false ∧ okReq.dev = true)
    ∧ (reindex ctx0 prodReq).1 = .error Err.httpNotFound
    ∧ (reindex ctx0 okReq).1
        = .ok [("id", Value.str "ann1"), ("indexed", Value.bool true)]
    ∧ (reindex ctx0 okReq).2 = [ Step.add_annot annA true] := by
  exact ⟨⟨rfl, rfl⟩, (reindex_dev_gate ctx0 prodReq).1 rfl,
    ((reindex_dev_gate ctx0 okReq).2 rfl).1, ((reindex_dev_gate ctx0 okReq).2 rfl).2⟩

/-- Claim C5: for every delete call whose deletion collaborator succeeds,
the response is exactly the two-entry mapping
`{"id": <target's id>, "deleted": True}` and the delete flow schedules no
`AnnotationEvent`. -/
theorem delete_ack_no_event (ctx : Context) (req : Request)
    (h : req.delete_svc ctx.ann = .ok ()) :
    (delete ctx req).1
      = .ok [("id", Value.str ctx.ann.id), ("deleted", Value.bool true)]
    ∧ notifyEvents (delete ctx req).2 = [] := by
  simp [delete, h, notifyEvents]

/-- Witness for C5 at `okReq` / `ctx0`. -/
theorem delete_ack_no_event_witness :
    okReq.delete_svc ctx0.ann = .ok ()
    ∧ (delete ctx0 okReq).1
        = .ok [("id", Value.str "ann1"), ("deleted", Value.bool true)]
    ∧ notifyEvents (delete ctx0 okReq).2 = [] := by
  exact ⟨rfl, (delete_ack_no_event ctx0 okReq rfl).1, (delete_ack_no_event ctx0 okReq rfl).2⟩

/-- Claim C6: every `AnnotationEvent` scheduled by any view, on any path,
has an action among exactly `"create"`, `"update"`, `"delete"`; the read,
reindex, delete and search flows schedule no event at all. -/
theorem events_action_invariant (req : Request) (ctx : Context) :
    (∀ e ∈ notifyEvents (create req).2,
        e.action = "create" ∨ e.action = "update" ∨ e.action = "delete")
    ∧ (∀ e ∈ notifyEvents (update ctx req).2,
        e.action = "create" ∨ e.action = "update" ∨ e.action = "delete")
    ∧ notifyEvents (read ctx req).2 = []
    ∧ notifyEvents (reindex ctx req).2 = []
    ∧ notifyEvents (delete ctx req).2 = []
    ∧ notifyEvents (search req).2 = [] := by
  refine ⟨?_, ?_, ?_, ?_, ?_, ?_⟩
  · intro e he
    cases hvc : req.validate_create with
    | error e1 => simp [create, hvc, notifyEvents] at he
    | ok a =>
      cases hcc : req.create_ann a with
      | error e1 => simp [create, hvc, hcc, notifyEvents] at he
      | ok ann =>
        simp [create, hvc, hcc, notifyEvents, publish_annotation_event] at he
        simp [he]
  · intro e he
    cases hvu : req.validate_update ctx.ann.target_uri ctx.ann.groupid with
    | error e1 => simp [update, hvu, notifyEvents] at he
    | ok a =>
      cases hcu : req.update_ann ctx.ann a with
      | error e1 => simp [update, hvu, hcu, notifyEvents] at he
      | ok ann =>
        simp [update, hvu, hcu, notifyEvents, publish_annotation_event] at he
        simp [he]
  · rfl
  · cases h : req.dev <;> simp [reindex, h, notifyEvents]
  · cases h : req.delete_svc ctx.ann <;> simp [delete, h, notifyEvents]
  · cases hv : req.validate_search with
    | error e1 => simp [search, hv, notifyEvents]
    | ok params =>
      cases hsep : separate_replies_of params <;>
        simp [search, hv, hsep, notifyEvents]

/-- Claim C9: read is deterministic — two read calls on the same annotation
with the same requesting user and the same (deterministic) presentation
collaborator yield identical presented output. -/
theorem read_deterministic (ctx ctx' : Context) (req req' : Request)
    (hann : ctx.ann = ctx'.ann) (huser : req.user = req'.user)
    (hpres : req.present_one = req'.present_one) :
    (read ctx req).1 = (read ctx' req').1 := by
  show req.present_one ctx.ann req.user = req'.present_one ctx'.ann req'.user
  rw [hann, huser, hpres]

/-- Witness for C9: two reads of `annA` through `okReq` agree. -/
theorem read_deterministic_witness :
    (ctx0.ann = ctx0.ann ∧ okReq.user = okReq.user
     ∧ okReq.present_one = okReq.present_one)
    ∧ (read ctx0 okReq).1 = (read ctx0 okReq).1 := by
  exact ⟨⟨rfl, rfl, rfl⟩, read_deterministic ctx0 ctx0 okReq okReq rfl rfl rfl⟩

/-- Claim C10: with the dev-mode flag off, reindex raises Not-Found before
any interaction with the search collaborator: its trace is empty, so in
particular no `add_annotation` call is made and the index is untouched. -/
theorem reindex_not_dev_no_index_call (ctx : Context) (req : Request)
    (h : req.dev = false) :
    (reindex ctx req).1 = .error Err.httpNotFound
    ∧ (reindex ctx req).2 = []
    ∧ hasAddAnnot (reindex ctx req).2 = false := by
  simp [reindex, h, hasAddAnnot]

/-- Witness for C10 at `prodReq` / `ctx0`. -/
theorem reindex_not_dev_no_index_call_witness :
    prodReq.dev = false
    ∧ (reindex ctx0 prodReq).2 = []
    ∧ hasAddAnnot (reindex ctx0 prodReq).2 = false := by
  exact ⟨rfl, (reindex_not_dev_no_index_call ctx0 prodReq rfl).2.1,
    (reindex_not_dev_no_index_call ctx0 prodReq rfl).2.2⟩

/-- Witness for C6 at `okReq` / `ctx0`. -/
theorem events_action_invariant_witness :
    (∀ e ∈ notifyEvents (create okReq).2,
        e.action = "create" ∨ e.action = "update" ∨ e.action = "delete")
    ∧ notifyEvents (read ctx0 okReq).2 = []
    ∧ notifyEvents (reindex ctx0 okReq).2 = []
    ∧ notifyEvents (search okReq).2 = [] := by
  exact ⟨(events_action_invariant okReq ctx0).1,
    (events_action_invariant okReq ctx0).2.2.1,
    (events_action_invariant okReq ctx0).2.2.2.1,
    (events_action_invariant okReq ctx0).2.2.2.2.2⟩
